import Mathlib

/-!
Shallow embedding of the pdf_backend repository: two Express server variants.

* `disk` — the disk-backed variant (`src/server.js`): multer diskStorage,
  endpoints `/extract-text` and `/translate`, an error-handling middleware.
* `mem` — the memory-backed variant (`src/unnamed/part_000`): multer
  memoryStorage, endpoints `/process-pdf`, `/extract-text`, `/translate`,
  helper functions `translateText` and `handleError`, and no error-handling
  middleware (errors passed to Express fall through to its default handler).

JavaScript strings are modelled as lists of characters (`Str`), JSON values
as the inductive `Json` (a field whose JS value is `undefined` is omitted
from the serialized object, which we model by conditional field lists),
and the external collaborators (pdf-parse, axios/MyMemory, multer) as
explicit inputs: the parse outcome, the provider outcome, and the upload
outcome are parameters of each route function.
-/

namespace PdfBackend

/-- A JavaScript string, modelled as its sequence of characters. -/
abbrev Str := List Char

/-- JSON values as serialized in responses and as returned by the provider. -/
inductive Json where
  | null
  | bool (b : Bool)
  | num (n : Int)
  | str (s : Str)
  | obj (fields : List (String × Json))

/-- JavaScript truthiness of a defined value. -/
def Json.truthy : Json → Bool
  | .null => false
  | .bool b => b
  | .num n => n != 0
  | .str s => !s.isEmpty
  | .obj _ => true

/-- Truthiness where `none` stands for JS `undefined`. -/
def jsOptTruthy : Option Json → Bool
  | none => false
  | some j => j.truthy

/-- JS `String(v)` on a defined value, as used by `new Error(v)`. -/
def Json.jsToStr : Json → Str
  | .null => "null".data
  | .bool true => "true".data
  | .bool false => "false".data
  | .num n => (toString n).data
  | .str s => s
  | .obj _ => "[object Object]".data

/-- Optional-chaining property access `v?.k`: `none` models `undefined`;
access on a non-object (or on `null`/`undefined`) yields `undefined`. -/
def jsGet (v : Option Json) (k : String) : Option Json :=
  match v with
  | some (.obj fs) => fs.lookup k
  | _ => none

/-- A JSON object field whose JS value may be `undefined`: `JSON.stringify`
omits such a key, so it contributes no field. -/
def optField (k : String) (v : Option Json) : List (String × Json) :=
  match v with
  | none => []
  | some j => [(k, j)]

/-- A JavaScript value occurring as a request-body field; `undefined` also
stands for an absent field. -/
inductive JSValue where
  | undefined
  | null
  | bool (b : Bool)
  | num (n : Int)
  | str (s : Str)
  | obj (j : Json)

def JSValue.truthy : JSValue → Bool
  | .undefined => false
  | .null => false
  | .bool b => b
  | .num n => n != 0
  | .str s => !s.isEmpty
  | .obj j => j.truthy

/-- JS `typeof v === 'string'`. -/
def JSValue.isString : JSValue → Bool
  | .str _ => true
  | _ => false

def JSValue.asString : JSValue → Str
  | .str s => s
  | _ => []

/-- JS string coercion, as performed by a template literal. -/
def JSValue.jsToString : JSValue → Str
  | .undefined => "undefined".data
  | .null => "null".data
  | .bool true => "true".data
  | .bool false => "false".data
  | .num n => (toString n).data
  | .str s => s
  | .obj j => j.jsToStr

/-- Destructuring default `const { x = d } = body`: the default applies
exactly when the field is `undefined`. -/
def jsDefault (v : JSValue) (d : Str) : JSValue :=
  match v with
  | .undefined => .str d
  | _ => v

/-- A thrown JS `Error`: its `message` and `stack`. -/
structure JsError where
  message : Str
  stack : Str

/-- An `Error` constructed inside the program; the runtime-generated stack
trace is not modelled (empty). -/
def mkError (m : Str) : JsError :=
  { message := m, stack := [] }

/-- Process environment: `process.env.NODE_ENV`. -/
structure Env where
  nodeEnv : String

/-- The check `process.env.NODE_ENV === 'development'`. -/
def Env.isDev (env : Env) : Bool :=
  env.nodeEnv == "development"

/-- An HTTP response body: JSON (via `res.json`) or an HTML error page
(Express's default error handler). -/
inductive HttpBody where
  | json (j : Json)
  | html (s : Str)

structure HttpResponse where
  status : Nat
  body : HttpBody

/-- Field of a JSON-object response body (`none` when absent or the body is
not a JSON object). -/
def respField (r : HttpResponse) (k : String) : Option Json :=
  match r.body with
  | .json (.obj fs) => fs.lookup k
  | _ => none

/-- Whether the response body is a JSON object carrying field `k`. -/
def hasField (r : HttpResponse) (k : String) : Bool :=
  (respField r k).isSome

/-- The uniform failure envelope: a JSON object with boolean field
`success = false` and a non-empty string field `error`. -/
def isFailureEnvelope (r : HttpResponse) : Bool :=
  (match respField r "success" with
   | some (.bool false) => true
   | _ => false) &&
  (match respField r "error" with
   | some (.str s) => !s.isEmpty
   | _ => false)

/-- Result of `pdf(buffer)`: extracted `text` and `numpages`. -/
structure PdfData where
  text : Str
  numpages : Nat

/-- Outcome of the axios call to the translation provider: a rejection
(network error, timeout, non-2xx) carrying the error, or a 2xx response
whose parsed body is `response.data`. -/
inductive ProviderOutcome where
  | failure (e : JsError)
  | success (data : Json)

/-- The HTTP request actually issued to the translation provider. -/
structure ProviderCall where
  q : Str
  langpair : Str
  de : Option Str
deriving DecidableEq

/-- An invocation of the translation adapter (`translateText`). -/
structure AdapterCall where
  text : Str
  fromLang : Str
  toLang : Str
deriving DecidableEq

/-- Outcome of the multer upload middleware for a single-file field:
no file present, a file accepted, or the request rejected by the MIME
filter or the 10 MiB size limit (rejections are passed to `next(err)`). -/
inductive UploadOutcome where
  | noFile
  | accepted
  | rejectedMime
  | rejectedSize
deriving DecidableEq

/-- What a route produced: the response plus the traces of adapter
invocations and of provider HTTP calls made while handling the request. -/
structure RouteOutcome where
  response : HttpResponse
  adapterCalls : List AdapterCall
  providerCalls : List ProviderCall

/-! ## Memory-backed variant (`src/unnamed/part_000`) -/

/-- Express's built-in default error handler. The memory-backed variant
registers no error-handling middleware, so an error passed to `next(err)`
(multer's MIME-filter and size-limit rejections, body-parse errors) falls
through to Express, which sends an HTML error page — not a JSON body. -/
def expressDefaultErrorHandler (e : JsError) : HttpResponse :=
  { status := 500, body := .html e.message }

/-- Helper `translateText(text, fromLang, toLang)` of the memory-backed
variant: issues the axios GET with `q = text.substring(0, 500)`,
`langpair` the template literal, and the fixed `de` parameter; on a 2xx
response it requires `response.data?.responseData?.translatedText` to be
truthy and otherwise throws
`new Error(response.data?.responseStatus || 'Translation service error')`.
Returns the result (or thrown error) together with the provider call made. -/
def mem.translateText (text fromLang toLang : Str) (provider : PdfBackend.ProviderOutcome) :
    Except JsError Json × ProviderCall :=
  let call : ProviderCall :=
    { q := text.take 500
      langpair := fromLang ++ "|".data ++ toLang
      de := some "your-email@example.com".data }
  match provider with
  | .failure e => (.error e, call)
  | .success data =>
    let tt := jsGet (jsGet (some data) "responseData") "translatedText"
    if jsOptTruthy tt then
      (.ok (tt.getD .null), call)
    else
      let rs := jsGet (some data) "responseStatus"
      (.error (mkError (match rs with
        | some v => if v.truthy then v.jsToStr else "Translation service error".data
        | none => "Translation service error".data)), call)

/-- Helper `handleError(res, err, context)` of the memory-backed variant:
a 500 JSON body with `success:false`, `error: context`, and `details`
(an object with the error's message and stack) only when
`NODE_ENV === 'development'`; otherwise `details` is `undefined` and the
key is omitted. -/
def mem.handleError (e : JsError) (context : Str) (env : Env) : HttpResponse :=
  { status := 500
    body := .json (.obj
      ([("success", .bool false), ("error", .str context)] ++
       (if env.isDev then
          [("details", .obj [("message", .str e.message), ("stack", .str e.stack)])]
        else [])))  }

/-- The 400 response shared by the file-taking endpoints when `req.file`
is absent. -/
def noFileResponse : HttpResponse :=
  { status := 400
    body := .json (.obj
      [("success", .bool false), ("error", .str "No PDF file uploaded".data)]) }

/-- The 400 response of `/translate` when `!text || typeof text !== 'string'`. -/
def invalidTextResponse : HttpResponse :=
  { status := 400
    body := .json (.obj
      [("success", .bool false),
       ("error", .str "Valid text is required for translation".data)]) }

/-- The memory-backed `/translate` route: destructures `text`,
`fromLang = 'auto'`, `toLang = 'en'` from the body, validates `text`, calls
`translateText`, and answers `{success:true, translatedText, characters}`
or `handleError(res, err, 'Translation failed')`. -/
def mem.translateRoute (text fromLangField toLangField : JSValue)
    (provider : ProviderOutcome) (env : Env) : RouteOutcome :=
  let fromLang := jsDefault fromLangField "auto".data
  let toLang := jsDefault toLangField "en".data
  if !text.truthy || !text.isString then
    { response := invalidTextResponse, adapterCalls := [], providerCalls := [] }
  else
    let s := text.asString
    let r := mem.translateText s fromLang.jsToString toLang.jsToString provider
    let acall : AdapterCall :=
      { text := s, fromLang := fromLang.jsToString, toLang := toLang.jsToString }
    match r.1 with
    | .ok t =>
      { response :=
          { status := 200
            body := .json (.obj
              [("success", .bool true), ("translatedText", t),
               ("characters", .num s.length)]) }
        adapterCalls := [acall], providerCalls := [r.2] }
    | .error e =>
      { response := mem.handleError e "Translation failed".data env
        adapterCalls := [acall], providerCalls := [r.2] }

/-- The inline catch of the memory-backed `/process-pdf` route: 500 with
`details: err.message` only under development (`undefined`, hence omitted,
otherwise). -/
def mem.processPdfCatch (e : JsError) (env : Env) : HttpResponse :=
  { status := 500
    body := .json (.obj
      ([("success", .bool false), ("error", .str "PDF processing failed".data)] ++
       (if env.isDev then [("details", .str e.message)] else []))) }

/-- The success body of `/process-pdf`: metadata, the preview
`extractedText.substring(0, 1000)` with `'...'` appended when the text is
longer than 1000 characters, the translation, and `downloadLink: null`. -/
def mem.processPdfSuccess (extractedText : Str) (numpages : Nat)
    (translation : Json) : HttpResponse :=
  { status := 200
    body := .json (.obj
      [("success", .bool true),
       ("metadata", .obj
         [("pages", .num numpages), ("textLength", .num extractedText.length)]),
       ("extractedText", .str
         (extractedText.take 1000 ++
          (if extractedText.length > 1000 then "...".data else []))),
       ("translatedText", translation),
       ("downloadLink", .null)]) }

/-- The memory-backed `/process-pdf` route. Multer rejections reach
Express's default handler (no error middleware is registered); otherwise:
400 without a file; parse the buffer; when the extracted text has more
than 50 characters call `translateText(extractedText.substring(0,500),
'auto', 'en')`, else keep `translation = ''`; any thrown error is caught
by the inline catch. -/
def mem.processPdfRoute (u : UploadOutcome) (parse : Except JsError PdfData)
    (provider : ProviderOutcome) (env : Env) : RouteOutcome :=
  match u with
  | .rejectedMime =>
    { response := expressDefaultErrorHandler
        (mkError "Only PDF files are allowed (max 10MB)".data)
      adapterCalls := [], providerCalls := [] }
  | .rejectedSize =>
    { response := expressDefaultErrorHandler (mkError "File too large".data)
      adapterCalls := [], providerCalls := [] }
  | .noFile =>
    { response := noFileResponse, adapterCalls := [], providerCalls := [] }
  | .accepted =>
    match parse with
    | .error e =>
      { response := mem.processPdfCatch e env
        adapterCalls := [], providerCalls := [] }
    | .ok data =>
      let extractedText := data.text
      if extractedText.length > 50 then
        let r := mem.translateText (extractedText.take 500)
                   "auto".data "en".data provider
        let acall : AdapterCall :=
          { text := extractedText.take 500
            fromLang := "auto".data, toLang := "en".data }
        match r.1 with
        | .error e =>
          { response := mem.processPdfCatch e env
            adapterCalls := [acall], providerCalls := [r.2] }
        | .ok t =>
          { response := mem.processPdfSuccess extractedText data.numpages t
            adapterCalls := [acall], providerCalls := [r.2] }
      else
        { response := mem.processPdfSuccess extractedText data.numpages (.str [])
          adapterCalls := [], providerCalls := [] }

/-- The memory-backed `/extract-text` route: parse the buffer and answer
`{success:true, text, pages, textLength}`; errors go to
`handleError(res, err, 'Text extraction failed')`; multer rejections reach
Express's default handler. -/
def mem.extractTextRoute (u : UploadOutcome) (parse : Except JsError PdfData)
    (env : Env) : HttpResponse :=
  match u with
  | .rejectedMime =>
    expressDefaultErrorHandler (mkError "Only PDF files are allowed (max 10MB)".data)
  | .rejectedSize =>
    expressDefaultErrorHandler (mkError "File too large".data)
  | .noFile => noFileResponse
  | .accepted =>
    match parse with
    | .ok data =>
      { status := 200
        body := .json (.obj
          [("success", .bool true), ("text", .str data.text),
           ("pages", .num data.numpages),
           ("textLength", .num data.text.length)]) }
    | .error e => mem.handleError e "Text extraction failed".data env

/-! ## Disk-backed variant (`src/server.js`) -/

/-- Effect of `fs.unlinkSync(path)` on whether the temp file exists. -/
def fsUnlink : Bool := false

/-- `fs.existsSync(path)` given whether the temp file exists. -/
def fsExistsSync (onDisk : Bool) : Bool := onDisk

/-- The disk-backed variant's error-handling middleware: 500 with
`success:false`, `error:'Internal server error'`, and `details: err.message`
unconditionally. -/
def disk.errorMiddleware (e : JsError) : HttpResponse :=
  { status := 500
    body := .json (.obj
      [("success", .bool false), ("error", .str "Internal server error".data),
       ("details", .str e.message)]) }

/-- The catch of the disk-backed `/extract-text` handler's response: 500
with `details: err.message` unconditionally (no environment check). -/
def disk.extractCatch (e : JsError) : HttpResponse :=
  { status := 500
    body := .json (.obj
      [("success", .bool false), ("error", .str "Failed to process PDF".data),
       ("details", .str e.message)]) }

/-- What the disk-backed `/extract-text` request left behind: the response
and whether the request's temporary upload file still exists on disk. -/
structure DiskExtractOutcome where
  response : HttpResponse
  tempFileExists : Bool

/-- The disk-backed `/extract-text` route. When a file is accepted multer
has written it under `./uploads`, so it exists as the handler starts; the
handler reads it (`readFileSync`), parses it (`pdf`), deletes it
(`unlinkSync`) and answers `{success:true, text}`; the catch deletes the
file when it still exists and answers via the catch response. Multer
rejections go to the error-handling middleware and no file is kept. -/
def disk.extractTextRoute (u : UploadOutcome) (readRes : Except JsError Unit)
    (parse : Except JsError PdfData) : DiskExtractOutcome :=
  match u with
  | .rejectedMime =>
    { response := disk.errorMiddleware (mkError "Only PDF files are allowed!".data)
      tempFileExists := false }
  | .rejectedSize =>
    { response := disk.errorMiddleware (mkError "File too large".data)
      tempFileExists := false }
  | .noFile =>
    { response := noFileResponse, tempFileExists := false }
  | .accepted =>
    let onDisk := true
    match readRes with
    | .error e =>
      { response := disk.extractCatch e
        tempFileExists := if fsExistsSync onDisk then fsUnlink else onDisk }
    | .ok _ =>
      match parse with
      | .error e =>
        { response := disk.extractCatch e
          tempFileExists := if fsExistsSync onDisk then fsUnlink else onDisk }
      | .ok data =>
        { response :=
            { status := 200
              body := .json (.obj
                [("success", .bool true), ("text", .str data.text)]) }
          tempFileExists := fsUnlink }

/-- The catch of the disk-backed `/translate` handler: 500 with
`error:'Translation failed'` and `details: err.message` unconditionally. -/
def disk.translateCatch (e : JsError) : HttpResponse :=
  { status := 500
    body := .json (.obj
      [("success", .bool false), ("error", .str "Translation failed".data),
       ("details", .str e.message)]) }

/-- What the disk-backed `/translate` request produced: the response and
the provider HTTP calls made. -/
structure DiskTranslateOutcome where
  response : HttpResponse
  providerCalls : List ProviderCall

/-- The disk-backed `/translate` route: destructures `text`,
`fromLang = 'en'`, `toLang = 'es'` from the body, validates `text`, issues
the axios GET inline with `textToTranslate` (truncated to 500 characters
when longer), and on a 2xx response with truthy `response.data` and truthy
`response.data.responseData` answers `{success:true, translatedText:
response.data.responseData.translatedText}` (the key is omitted when that
value is `undefined`); otherwise it throws, and the catch answers 500. -/
def disk.translateRoute (text fromLangField toLangField : JSValue)
    (provider : ProviderOutcome) : DiskTranslateOutcome :=
  let fromLang := jsDefault fromLangField "en".data
  let toLang := jsDefault toLangField "es".data
  if !text.truthy || !text.isString then
    { response := invalidTextResponse, providerCalls := [] }
  else
    let s := text.asString
    let textToTranslate := if s.length > 500 then s.take 500 else s
    let call : ProviderCall :=
      { q := textToTranslate
        langpair := fromLang.jsToString ++ "|".data ++ toLang.jsToString
        de := none }
    match provider with
    | .failure e =>
      { response := disk.translateCatch e, providerCalls := [call] }
    | .success data =>
      if data.truthy && jsOptTruthy (jsGet (some data) "responseData") then
        { response :=
            { status := 200
              body := .json (.obj
                ([("success", .bool true)] ++
                 optField "translatedText"
                   (jsGet (jsGet (some data) "responseData") "translatedText"))) }
          providerCalls := [call] }
      else
        { response := disk.translateCatch
            (mkError "Invalid response from translation service".data)
          providerCalls := [call] }

/-! ## Claims -/

/-! Helper lemmas shared by several proofs. -/

/-- The provider call issued by the memory-backed `translateText` does not
depend on the provider's outcome: `q` is the 500-character truncation and
`langpair` the joined language pair. -/
theorem mem.translateText_call (text fromLang toLang : Str)
    (provider : ProviderOutcome) :
    (mem.translateText text fromLang toLang provider).2 =
      { q := text.take 500
        langpair := fromLang ++ "|".data ++ toLang
        de := some "your-email@example.com".data } := by
  cases provider with
  | failure e => rfl
  | success data =>
    simp only [mem.translateText]
    split <;> rfl

/-- C9: in the disk-backed variant, for every `/extract-text` request in
which a file was uploaded, the temporary file no longer exists on disk
after the request completes — on the success path and on every failure
path (read failure or parse failure). -/
theorem c9_temp_file_deleted (readRes : Except JsError Unit)
    (parse : Except JsError PdfData) :
    (disk.extractTextRoute .accepted readRes parse).tempFileExists = false := by
  cases readRes <;> cases parse <;> rfl

/-- C10: the memory-backed `translateText` itself truncates its input to
the first 500 characters (so the provider receives at most 500 characters
from any call site), truncation at 500 is idempotent, and on the
`/process-pdf` path the provider call carries exactly the first 500
characters of the extracted text — the call-site truncation composed with
the one inside `translateText` equals a single truncation. -/
theorem c10_truncation_cap_idempotent (text fromLang toLang s : Str)
    (provider : ProviderOutcome) (data : PdfData) (env : Env) :
    ((mem.translateText text fromLang toLang provider).2.q = text.take 500) ∧
    ((mem.translateText text fromLang toLang provider).2.q.length ≤ 500) ∧
    ((s.take 500).take 500 = s.take 500) ∧
    ((mem.processPdfRoute .accepted (.ok data) provider env).providerCalls =
      if data.text.length > 50 then
        [{ q := data.text.take 500
           langpair := "auto|en".data
           de := some "your-email@example.com".data }]
      else []) := by
  refine ⟨?_, ?_, ?_, ?_⟩
  · rw [mem.translateText_call]
  · rw [mem.translateText_call]
    exact List.length_take_le 500 text
  · simp [List.take_take]
  · by_cases h : data.text.length > 50
    · simp only [mem.processPdfRoute, if_pos h]
      split <;> simp [mem.translateText_call, List.take_take]
    · simp [mem.processPdfRoute, if_neg h, h]

/-- C2: on `/process-pdf`, extracted text of length at most 50 yields an
empty `translatedText` and no translation-adapter invocation; length
greater than 50 yields exactly one invocation of the adapter, with the
first 500 characters of the extracted text (hence at most 500 characters),
source `'auto'` and target `'en'`, and on adapter success the response's
`translatedText` is the adapter's result. -/
theorem c2_process_pdf_translation_gate (data : PdfData)
    (provider : ProviderOutcome) (env : Env) :
    (data.text.length ≤ 50 →
      (mem.processPdfRoute .accepted (.ok data) provider env).adapterCalls = [] ∧
      (mem.processPdfRoute .accepted (.ok data) provider env).providerCalls = [] ∧
      respField (mem.processPdfRoute .accepted (.ok data) provider env).response
        "translatedText" = some (.str [])) ∧
    (50 < data.text.length →
      (mem.processPdfRoute .accepted (.ok data) provider env).adapterCalls =
        [{ text := data.text.take 500
           fromLang := "auto".data, toLang := "en".data }] ∧
      (data.text.take 500).length ≤ 500 ∧
      (∀ t, (mem.translateText (data.text.take 500) "auto".data "en".data
               provider).1 = .ok t →
        respField (mem.processPdfRoute .accepted (.ok data) provider env).response
          "translatedText" = some t)) := by
  constructor
  · intro h
    have h' : ¬ data.text.length > 50 := by omega
    refine ⟨?_, ?_, ?_⟩ <;>
      simp [mem.processPdfRoute, if_neg h', mem.processPdfSuccess, respField, List.lookup]
  · intro h
    refine ⟨?_, List.length_take_le 500 data.text, ?_⟩
    · simp only [mem.processPdfRoute, if_pos h]
      split <;> simp
    · intro t ht
      simp [mem.processPdfRoute, if_pos h, ht, mem.processPdfSuccess, respField, List.lookup]

/-- C2 witness: a 60-character text with a well-formed provider response
hits the length-greater-than-50 branch, producing exactly one adapter call
and a `translatedText` equal to the adapter's result. -/
theorem c2_witness :
    (mem.processPdfRoute .accepted (.ok ⟨List.replicate 60 'a', 1⟩)
      (.success (.obj [("responseData",
        .obj [("translatedText", .str "hola".data)])]))
      ⟨"production"⟩).adapterCalls =
      [{ text := (List.replicate 60 'a').take 500
         fromLang := "auto".data, toLang := "en".data }] ∧
    respField (mem.processPdfRoute .accepted (.ok ⟨List.replicate 60 'a', 1⟩)
      (.success (.obj [("responseData",
        .obj [("translatedText", .str "hola".data)])]))
      ⟨"production"⟩).response "translatedText" = some (.str "hola".data) := by
  have h := (c2_process_pdf_translation_gate ⟨List.replicate 60 'a', 1⟩
    (.success (.obj [("responseData",
      .obj [("translatedText", .str "hola".data)])]))
    ⟨"production"⟩).2 (by simp)
  exact ⟨h.1, h.2.2 (.str "hola".data) rfl⟩

/-- C3: the `extractedText` field of every successful `/process-pdf`
response is the first 1000 characters of the extracted text followed by
`'...'` when the text is longer than 1000 characters, and when the text is
at most 1000 characters long that preview equals the full text; the
`metadata` field carries the page count and the text length. -/
theorem c3_extracted_text_preview (data : PdfData)
    (provider : ProviderOutcome) (env : Env) :
    ((mem.processPdfRoute .accepted (.ok data) provider env).response.status
        = 200 →
      respField (mem.processPdfRoute .accepted (.ok data) provider env).response
          "extractedText" =
        some (.str (data.text.take 1000 ++
          (if data.text.length > 1000 then "...".data else []))) ∧
      respField (mem.processPdfRoute .accepted (.ok data) provider env).response
          "metadata" =
        some (.obj [("pages", .num data.numpages),
                    ("textLength", .num data.text.length)])) ∧
    (data.text.length ≤ 1000 →
      data.text.take 1000 ++
        (if data.text.length > 1000 then "...".data else []) = data.text) := by
  constructor
  · intro h200
    by_cases h : data.text.length > 50
    · constructor <;>
        · simp only [mem.processPdfRoute, if_pos h] at h200 ⊢
          split at h200 <;>
            simp_all [mem.processPdfSuccess, mem.processPdfCatch, respField, List.lookup]
    · constructor <;>
        simp [mem.processPdfRoute, if_neg h, mem.processPdfSuccess, respField, List.lookup]
  · intro hle
    have h' : ¬ data.text.length > 1000 := by omega
    simp [if_neg h', List.take_of_length_le hle]

set_option maxRecDepth 20000 in
/-- C3 witness: the spec's fixture — extracted text of length 1200 and
page count 3 — yields `metadata` with pages 3 and textLength 1200, and an
`extractedText` preview of length 1003 whose last three characters are
`'...'`. -/
theorem c3_witness :
    respField (mem.processPdfRoute .accepted (.ok ⟨List.replicate 1200 'a', 3⟩)
      (.success (.obj [("responseData",
        .obj [("translatedText", .str "hola".data)])]))
      ⟨"production"⟩).response "metadata" =
      some (.obj [("pages", .num 3), ("textLength", .num 1200)]) ∧
    respField (mem.processPdfRoute .accepted (.ok ⟨List.replicate 1200 'a', 3⟩)
      (.success (.obj [("responseData",
        .obj [("translatedText", .str "hola".data)])]))
      ⟨"production"⟩).response "extractedText" =
      some (.str ((List.replicate 1200 'a').take 1000 ++ "...".data)) ∧
    ((List.replicate 1200 'a').take 1000 ++ "...".data).length = 1003 ∧
    ((List.replicate 1200 'a').take 1000 ++ "...".data).drop 1000 = "...".data := by
  have h := (c3_extracted_text_preview ⟨List.replicate 1200 'a', 3⟩
    (.success (.obj [("responseData",
      .obj [("translatedText", .str "hola".data)])]))
    ⟨"production"⟩).1 rfl
  have hl : ((List.replicate 1200 'a').take 1000).length = 1000 := by
    simp [List.length_take]
  refine ⟨by simpa using h.2, by simpa using h.1, ?_, ?_⟩
  · simp [List.length_append, hl]
  · calc ((List.replicate 1200 'a').take 1000 ++ "...".data).drop 1000
        = ((List.replicate 1200 'a').take 1000 ++ "...".data).drop
            ((List.replicate 1200 'a').take 1000).length := by rw [hl]
      _ = "...".data := List.drop_left _ _

/-- C5: in both variants, a `/translate` request whose body `text` is
falsy (empty string, absent, null) or not a string is answered with
status 400 and `success:false`, and neither the translation adapter nor
the external translation call is ever invoked. -/
theorem c5_translate_validation (text fromLangField toLangField : JSValue)
    (provider : ProviderOutcome) (env : Env)
    (h : text.truthy = false ∨ text.isString = false) :
    (mem.translateRoute text fromLangField toLangField provider env).response
        = invalidTextResponse ∧
    (mem.translateRoute text fromLangField toLangField provider env).adapterCalls
        = [] ∧
    (mem.translateRoute text fromLangField toLangField provider env).providerCalls
        = [] ∧
    (disk.translateRoute text fromLangField toLangField provider).response
        = invalidTextResponse ∧
    (disk.translateRoute text fromLangField toLangField provider).providerCalls
        = [] ∧
    invalidTextResponse.status = 400 ∧
    respField invalidTextResponse "success" = some (.bool false) := by
  have hcond : (!text.truthy || !text.isString) = true := by
    rcases h with h | h <;> simp [h]
  refine ⟨?_, ?_, ?_, ?_, ?_, rfl, rfl⟩ <;>
    simp [mem.translateRoute, disk.translateRoute, hcond]

/-- C5 witness: the empty-string `text` is rejected with 400 by both
variants and no translation call is made. -/
theorem c5_witness :
    (mem.translateRoute (.str []) .undefined .undefined
      (.failure (mkError [])) ⟨"production"⟩).providerCalls = [] ∧
    (disk.translateRoute (.str []) .undefined .undefined
      (.failure (mkError []))).response.status = 400 := by
  have h := c5_translate_validation (.str []) .undefined .undefined
    (.failure (mkError [])) ⟨"production"⟩ (Or.inl rfl)
  refine ⟨h.2.2.1, ?_⟩
  rw [h.2.2.2.1]
  rfl

/-- C1 counterexample: in the disk-backed variant run outside development
configuration, the `/extract-text` failure response still carries a
`details` field with the internal error message — the disk variant's catch
never consults the environment. -/
theorem c1_counterexample :
    Env.isDev ⟨"production"⟩ = false ∧
    hasField (disk.extractTextRoute .accepted (.error (mkError "boom".data))
      (.ok ⟨[], 0⟩)).response "details" = true ∧
    respField (disk.extractTextRoute .accepted (.error (mkError "boom".data))
      (.ok ⟨[], 0⟩)).response "details" = some (.str "boom".data) := by
  refine ⟨rfl, rfl, rfl⟩

/-- C1 amended: in the memory-backed variant, a caught-error failure
response carries `details` exactly when the environment is the development
configuration (and the 400 validation responses never carry it); in the
disk-backed variant, every catch and the error middleware carry `details`
with the internal error message regardless of the environment. -/
theorem c1_details_only_in_development (e : JsError) (context : Str)
    (env : Env) :
    (hasField (mem.handleError e context env) "details" = env.isDev) ∧
    (hasField (mem.processPdfCatch e env) "details" = env.isDev) ∧
    (hasField noFileResponse "details" = false) ∧
    (hasField invalidTextResponse "details" = false) ∧
    (hasField (disk.extractCatch e) "details" = true) ∧
    (hasField (disk.translateCatch e) "details" = true) ∧
    (hasField (disk.errorMiddleware e) "details" = true) := by
  refine ⟨?_, ?_, rfl, rfl, rfl, rfl, rfl⟩ <;>
    cases h : env.isDev <;>
      simp [mem.handleError, mem.processPdfCatch, h, hasField, respField,
        List.lookup]

/-- C6 counterexample: in the disk-backed variant, a `/translate` request
that omits `fromLang` and `toLang` reaches the provider with the language
pair `en|es`, not `auto|en`. -/
theorem c6_counterexample :
    (disk.translateRoute (.str "hello".data) .undefined .undefined
      (.failure (mkError []))).providerCalls =
      [{ q := "hello".data, langpair := "en|es".data, de := none }] ∧
    "en|es".data ≠ "auto|en".data := by
  exact ⟨rfl, by decide⟩

/-- C6 amended: when `fromLang` and `toLang` are omitted, the
memory-backed variant calls the adapter and the provider with defaults
`auto` and `en`, while the disk-backed variant calls the provider with
defaults `en` and `es`. -/
theorem c6_translate_defaults (s : Str) (provider : ProviderOutcome)
    (env : Env) :
    ((mem.translateRoute (.str s) .undefined .undefined provider env).adapterCalls
        = if s.isEmpty then [] else
            [{ text := s, fromLang := "auto".data, toLang := "en".data }]) ∧
    ((mem.translateRoute (.str s) .undefined .undefined provider env).providerCalls
        = if s.isEmpty then [] else
            [{ q := s.take 500, langpair := "auto|en".data
               de := some "your-email@example.com".data }]) ∧
    ((disk.translateRoute (.str s) .undefined .undefined provider).providerCalls
        = if s.isEmpty then [] else
            [{ q := if s.length > 500 then s.take 500 else s
               langpair := "en|es".data, de := none }]) := by
  cases hs : s.isEmpty with
  | true =>
    refine ⟨?_, ?_, ?_⟩ <;>
      simp [mem.translateRoute, disk.translateRoute, JSValue.truthy,
        JSValue.isString, hs]
  | false =>
    refine ⟨?_, ?_, ?_⟩
    · simp [mem.translateRoute, JSValue.truthy, JSValue.isString,
        JSValue.asString, jsDefault, JSValue.jsToString, hs]
      split <;> simp
    · simp [mem.translateRoute, JSValue.truthy, JSValue.isString,
        JSValue.asString, jsDefault, JSValue.jsToString, hs]
      split <;> simp [mem.translateText_call]
    · simp [disk.translateRoute, JSValue.truthy, JSValue.isString,
        JSValue.asString, jsDefault, JSValue.jsToString, hs]
      split <;> (try split) <;> rfl

/-- C7 counterexample: the disk-backed `/extract-text` success response
has status 200 and `success:true` but carries neither a `pages` nor a
`textLength` field. -/
theorem c7_counterexample :
    (disk.extractTextRoute .accepted (.ok ()) (.ok ⟨"hi".data, 2⟩)).response.status
        = 200 ∧
    respField (disk.extractTextRoute .accepted (.ok ())
      (.ok ⟨"hi".data, 2⟩)).response "success" = some (.bool true) ∧
    hasField (disk.extractTextRoute .accepted (.ok ())
      (.ok ⟨"hi".data, 2⟩)).response "pages" = false ∧
    hasField (disk.extractTextRoute .accepted (.ok ())
      (.ok ⟨"hi".data, 2⟩)).response "textLength" = false := by
  refine ⟨rfl, rfl, rfl, rfl⟩

/-- C7 amended: on a successful `/extract-text` request the memory-backed
variant answers 200 with `success:true`, the full text, the page count and
the text length, while the disk-backed variant answers 200 with only
`success:true` and the full text. -/
theorem c7_extract_text_success_shape (data : PdfData) (env : Env) :
    (mem.extractTextRoute .accepted (.ok data) env =
      { status := 200
        body := .json (.obj
          [("success", .bool true), ("text", .str data.text),
           ("pages", .num data.numpages),
           ("textLength", .num data.text.length)]) }) ∧
    ((disk.extractTextRoute .accepted (.ok ()) (.ok data)).response =
      { status := 200
        body := .json (.obj
          [("success", .bool true), ("text", .str data.text)]) }) ∧
    hasField (disk.extractTextRoute .accepted (.ok ()) (.ok data)).response
      "pages" = false := by
  refine ⟨rfl, rfl, rfl⟩

/-- C8 counterexample: in the disk-backed variant, a provider response
whose `responseData` is present but lacks `translatedText` yields a 200
`success:true` response with the `translatedText` key omitted — no error
is signalled. -/
theorem c8_counterexample :
    (disk.translateRoute (.str "hi".data) .undefined .undefined
      (.success (.obj [("responseData", .obj [])]))).response.status = 200 ∧
    respField (disk.translateRoute (.str "hi".data) .undefined .undefined
      (.success (.obj [("responseData", .obj [])]))).response "success"
      = some (.bool true) ∧
    hasField (disk.translateRoute (.str "hi".data) .undefined .undefined
      (.success (.obj [("responseData", .obj [])]))).response "translatedText"
      = false := by
  refine ⟨rfl, rfl, rfl⟩

/-- C8 amended: when the provider's 2xx response lacks the expected
translated-text field, the memory-backed `translateText` signals an error
carrying the provider's status message when one is truthy (and a generic
message otherwise); the disk-backed `/translate`, by contrast, answers
200 `success:true` with the `translatedText` key omitted whenever
`response.data` and its `responseData` are truthy. -/
theorem c8_missing_translated_text (text fromLang toLang : Str) (data : Json)
    (habs : jsGet (jsGet (some data) "responseData") "translatedText" = none) :
    ((mem.translateText text fromLang toLang (.success data)).1 =
      .error (mkError (match jsGet (some data) "responseStatus" with
        | some v => if v.truthy then v.jsToStr
                    else "Translation service error".data
        | none => "Translation service error".data))) ∧
    (∀ s : Str, s.isEmpty = false → data.truthy = true →
      jsOptTruthy (jsGet (some data) "responseData") = true →
      (disk.translateRoute (.str s) .undefined .undefined
        (.success data)).response.status = 200 ∧
      respField (disk.translateRoute (.str s) .undefined .undefined
        (.success data)).response "success" = some (.bool true) ∧
      hasField (disk.translateRoute (.str s) .undefined .undefined
        (.success data)).response "translatedText" = false) := by
  constructor
  · simp [mem.translateText, habs, jsOptTruthy]
  · intro s hs hd hrd
    refine ⟨?_, ?_, ?_⟩ <;>
      simp [disk.translateRoute, JSValue.truthy, JSValue.isString,
        JSValue.asString, jsDefault, JSValue.jsToString, hs, hd, hrd, habs,
        respField, hasField, optField, List.lookup]

/-- C8 witness: the provider body with an empty `responseData` object makes
the memory-backed adapter signal the generic error while the disk-backed
route succeeds without a `translatedText` field. -/
theorem c8_witness :
    (mem.translateText "hi".data "auto".data "en".data
      (.success (.obj [("responseData", .obj [])]))).1 =
      .error (mkError "Translation service error".data) ∧
    hasField (disk.translateRoute (.str "hi".data) .undefined .undefined
      (.success (.obj [("responseData", .obj [])]))).response "translatedText"
      = false := by
  have h := c8_missing_translated_text "hi".data "auto".data "en".data
    (.obj [("responseData", .obj [])]) rfl
  refine ⟨?_, (h.2 "hi".data rfl rfl rfl).2.2⟩
  rw [h.1]
  rfl

/-- The failure envelope holds for `handleError` whenever its context
message is non-empty. -/
theorem isFailureEnvelope_handleError (e : JsError) (context : Str)
    (env : Env) (hc : context.isEmpty = false) :
    isFailureEnvelope (mem.handleError e context env) = true := by
  cases h : env.isDev <;>
    simp [isFailureEnvelope, mem.handleError, respField, List.lookup, hc, h]

/-- C4 counterexample: in the memory-backed variant a multer MIME
rejection produces a 500 response that is not the JSON failure envelope
(Express's default handler answers with an HTML page). -/
theorem c4_counterexample :
    (mem.extractTextRoute .rejectedMime (.ok ⟨[], 0⟩) ⟨"development"⟩).status
      = 500 ∧
    isFailureEnvelope
      (mem.extractTextRoute .rejectedMime (.ok ⟨[], 0⟩) ⟨"development"⟩)
      = false := by
  refine ⟨rfl, rfl⟩

/-- C4 amended: every failure response produced by the disk-backed routes
(including multer rejections, which its error middleware converts) and
every failure response produced inside the memory-backed route handlers is
the JSON envelope with `success:false` and a non-empty `error` message;
but the memory-backed variant's multer rejections (MIME filter or size
limit) escape to Express's default handler and are not the envelope. -/
theorem c4_failure_envelope (u : UploadOutcome) (readRes : Except JsError Unit)
    (parse : Except JsError PdfData) (text fromLangField toLangField : JSValue)
    (provider : ProviderOutcome) (env : Env) :
    ((disk.extractTextRoute u readRes parse).response.status ≠ 200 →
      isFailureEnvelope (disk.extractTextRoute u readRes parse).response
        = true) ∧
    ((disk.translateRoute text fromLangField toLangField provider).response.status
        ≠ 200 →
      isFailureEnvelope
        (disk.translateRoute text fromLangField toLangField provider).response
        = true) ∧
    ((mem.extractTextRoute .noFile parse env).status ≠ 200 →
      isFailureEnvelope (mem.extractTextRoute .noFile parse env) = true) ∧
    ((mem.extractTextRoute .accepted parse env).status ≠ 200 →
      isFailureEnvelope (mem.extractTextRoute .accepted parse env) = true) ∧
    ((mem.processPdfRoute .noFile parse provider env).response.status ≠ 200 →
      isFailureEnvelope
        (mem.processPdfRoute .noFile parse provider env).response = true) ∧
    ((mem.processPdfRoute .accepted parse provider env).response.status ≠ 200 →
      isFailureEnvelope
        (mem.processPdfRoute .accepted parse provider env).response = true) ∧
    ((mem.translateRoute text fromLangField toLangField provider env).response.status
        ≠ 200 →
      isFailureEnvelope
        (mem.translateRoute text fromLangField toLangField provider env).response
        = true) ∧
    (isFailureEnvelope (mem.extractTextRoute .rejectedMime parse env) = false ∧
     isFailureEnvelope
       (mem.processPdfRoute .rejectedSize parse provider env).response
       = false) := by
  refine ⟨?_, ?_, ?_, ?_, ?_, ?_, ?_, rfl, rfl⟩
  · intro h
    cases u with
    | rejectedMime => rfl
    | rejectedSize => rfl
    | noFile => rfl
    | accepted =>
      cases readRes with
      | error e => rfl
      | ok _ =>
        cases parse with
        | error e => rfl
        | ok data => exact absurd rfl h
  · intro h
    cases hcond : (!text.truthy || !text.isString) with
    | true => simp [disk.translateRoute, hcond]; rfl
    | false =>
      cases provider with
      | failure e => simp [disk.translateRoute, hcond]; rfl
      | success data =>
        by_cases hok : data.truthy = true ∧
            jsOptTruthy (jsGet (some data) "responseData") = true
        · exact absurd (by simp [disk.translateRoute, hcond, hok]) h
        · simp [disk.translateRoute, hcond, hok]; rfl
  · intro h; rfl
  · intro h
    cases parse with
    | error e => exact isFailureEnvelope_handleError e _ env rfl
    | ok data => exact absurd rfl h
  · intro h; rfl
  · intro h
    cases parse with
    | error e => rfl
    | ok data =>
      by_cases hlen : data.text.length > 50
      · simp only [mem.processPdfRoute, if_pos hlen] at h ⊢
        cases hr : (mem.translateText (data.text.take 500) "auto".data
            "en".data provider).1 with
        | error e => simp [hr]; rfl
        | ok t => rw [hr] at h; exact absurd rfl h
      · exact absurd (by simp [mem.processPdfRoute, hlen, mem.processPdfSuccess]) h
  · intro h
    cases hcond : (!text.truthy || !text.isString) with
    | true => simp [mem.translateRoute, hcond]; rfl
    | false =>
      cases hr : (mem.translateText text.asString
          (jsDefault fromLangField "auto".data).jsToString
          (jsDefault toLangField "en".data).jsToString provider).1 with
      | error e =>
        simp only [mem.translateRoute, hcond] at h ⊢
        rw [hr] at h ⊢
        exact isFailureEnvelope_handleError e _ env rfl
      | ok t =>
        simp only [mem.translateRoute, hcond] at h
        rw [hr] at h
        exact absurd rfl h

/-- C4 witness: a no-file upload on the disk-backed `/extract-text` and an
empty-text memory-backed `/translate` both produce the failure envelope. -/
theorem c4_witness :
    isFailureEnvelope (disk.extractTextRoute .noFile (.ok ())
      (.ok ⟨[], 0⟩)).response = true ∧
    isFailureEnvelope (mem.translateRoute (.str []) .undefined .undefined
      (.failure (mkError [])) ⟨"production"⟩).response = true := by
  have h := c4_failure_envelope .noFile (.ok ()) (.ok ⟨[], 0⟩)
    (.str []) .undefined .undefined (.failure (mkError [])) ⟨"production"⟩
  exact ⟨h.1 (by decide), h.2.2.2.2.2.2.1 (by decide)⟩

end PdfBackend
